import Mathlib

/-!
Shallow embedding of the survey data validation engine in this repository
(src/app1.py, src/app5.py, src/app6.py, src/appnew.py).

The engine walks a rule table over an in-memory tabular dataset and emits
`Finding` records.  We model the dataset as a list of rows, each carrying a
`RespondentID` and an association list of (column, value) cells; a cell value
is a number, a string, or the pandas null marker `NaN` (`Val.na`).

Pandas behaviours this embedding commits to (each noted at its use site):
 - `Series.isna` is true exactly on the null marker;
 - `astype(str)` renders the null marker as the three-character string "nan";
 - comparisons (`<`, `<=`, `between`, ...) involving the null marker are False;
 - `Series.isin [0, 1]` is a plain value-equality membership test (the null
   marker is not in the list);
 - `duplicated(keep=False)` marks every row whose value occurs in at least two
   rows (the null marker compares equal to itself);
 - `fillna 0` replaces the null marker by 0.
-/

/-- A pandas cell value: the null marker `NaN`, a string, or a number.
Numbers are modelled as rationals (Python floats on the inputs the engine
meets are decimal literals). -/
inductive Val where
  | na : Val
  | str : String → Val
  | num : Rat → Val
deriving DecidableEq, Repr

/-- pandas `Series.isna`: true exactly on the null marker. -/
def Val.isna : Val → Bool
  | .na => true
  | _ => false

/-- Python `str()` of a cell as pandas `astype(str)` produces it: the null
marker renders as "nan"; numbers render non-empty (the exact numeral format
is irrelevant to every claim, which only use that it is not blank). -/
def pyStr : Val → String
  | .na => "nan"
  | .str s => s
  | .num q => toString q

/-- Character-level prefix test (kernel-reducible replacement for
`String.startsWith`, whose byte-position recursion does not reduce). -/
def leadMatch : List Char → List Char → Bool
  | [], _ => true
  | _ :: _, [] => false
  | a :: as, b :: bs => a == b && leadMatch as bs

/-- Python `s.startswith(pat)`. -/
def strStartsWith (s pat : String) : Bool := leadMatch pat.data s.data

/-- Python `s.strip()` / pandas `str.strip()`: drop leading and trailing
whitespace. -/
def strTrim (s : String) : String :=
  ⟨((s.data.dropWhile Char.isWhitespace).reverse.dropWhile Char.isWhitespace).reverse⟩

/-- Python `s.lower()`. -/
def strToLower (s : String) : String := ⟨s.data.map Char.toLower⟩

/-- Python `s[n:]`. -/
def strDrop (s : String) (n : Nat) : String := ⟨s.data.drop n⟩

/-- Fuel-driven worker for `strSplitOn`; the fuel is an upper bound on the
number of characters still to scan, so it never runs out on the initial
call. -/
def splitOnGo (sep : List Char) : Nat → List Char → List Char → List (List Char)
  | 0, acc, _ => [acc.reverse]
  | _ + 1, acc, [] => [acc.reverse]
  | fuel + 1, acc, c :: cs =>
    if leadMatch sep (c :: cs) then
      acc.reverse :: splitOnGo sep fuel [] ((c :: cs).drop sep.length)
    else
      splitOnGo sep fuel (c :: acc) cs

/-- Python `s.split(sep)` for a non-empty separator: leftmost,
non-overlapping matches (kernel-reducible replacement for
`String.splitOn`). -/
def strSplitOn (s sep : String) : List String :=
  if sep.data.isEmpty then [s]
  else (splitOnGo sep.data (s.data.length + 1) [] s.data).map (fun cs => ⟨cs⟩)

/-- Worker for `strTokens`: split a character list at every character
satisfying `p`, keeping empty pieces. -/
def splitAnyGo (p : Char → Bool) : List Char → List Char → List (List Char)
  | acc, [] => [acc.reverse]
  | acc, c :: cs =>
    if p c then acc.reverse :: splitAnyGo p [] cs
    else splitAnyGo p (c :: acc) cs

/-- Python `s.split()`-style whitespace tokenisation: split at every
whitespace character, then discard the empty pieces. -/
def strTokens (s : String) : List String :=
  ((splitAnyGo Char.isWhitespace [] s.data).map (fun cs => (⟨cs⟩ : String))).filter
    (fun t => t ≠ "")

/-- Python `s.replace(pat, sub)` for a non-empty pattern: split on the
pattern and re-join with the replacement. -/
def strReplace (s pat sub : String) : String :=
  String.intercalate sub (strSplitOn s pat)

/-- Blank test used by app6.py line 88 and the skip branches of app5.py
lines 150/156/160: the null marker, or the empty string after trimming.
Matches the spec's definition of a *blank* scalar. -/
def isBlank (v : Val) : Bool := v.isna || strTrim (pyStr v) == ""

/-- One dataset row: its `RespondentID` and its cells. -/
structure Row where
  rid : Int
  cells : List (String × Val)
deriving DecidableEq, Repr

/-- Cell lookup; pandas rows carry every dataset column, so the default for
an absent key (only reachable outside the engine's guarded paths) is `NaN`. -/
def Row.cell (r : Row) (c : String) : Val :=
  ((r.cells.find? (fun p => p.1 == c)).map Prod.snd).getD Val.na

/-- The in-memory dataset: column names plus rows. -/
structure DataFrame where
  cols : List String
  rows : List Row
deriving DecidableEq, Repr

/-- One report entry; `rid = none` is a rule-level finding. -/
structure Finding where
  rid : Option Int
  question : String
  checkType : String
  issue : String
deriving DecidableEq, Repr

/-- Python `str(condition)` where `condition` may be `None`. -/
def condStr : Option String → String
  | none => "None"
  | some c => c

/-- Python set union on the skip-satisfaction set, membership-faithful:
`i ∈ setUnion s t ↔ i ∈ s ∨ i ∈ t`. -/
def setUnion (s t : List Int) : List Int :=
  s ++ t.filter (fun i => !(s.contains i))

/-- Digits-only natural number parser (helper for `parseRatDec`). -/
def parseNatDigits (cs : List Char) : Option Nat :=
  match cs with
  | [] => none
  | _ => cs.foldlM (fun acc c => if c.isDigit then some (acc * 10 + (c.toNat - 48)) else none) 0

/-- Python `float(...)` on the decimal literals the rule tables use:
optional sign, digits, optional fractional part.  (Python's `float` also
accepts exotic forms such as `"1e3"` or `"inf"` that never appear in rule
conditions; those are outside the modelled fragment.) -/
def parseRatDec (s : String) : Option Rat :=
  let t := strTrim s
  let sgn : Int := if strStartsWith t "-" then -1 else 1
  let body := if strStartsWith t "-" then strDrop t 1 else t
  match strSplitOn body "." with
  | [w] =>
    match parseNatDigits w.toList with
    | some n => some ((sgn * (n : Int) : Int) : Rat)
    | none => none
  | [w, f] =>
    match parseNatDigits w.toList, parseNatDigits f.toList with
    | some wn, some fn => some ((sgn : Rat) * ((wn : Rat) + (fn : Rat) / ((10 : Rat) ^ f.length)))
    | _, _ => none
  | _ => none

/-- Python `s.split(sep, 1)`: split on the first occurrence of a substring,
or `none` when the substring does not occur (which in the sources is guarded
by `sep in s`). -/
def splitOnce (s sep : String) : Option (String × String) :=
  match strSplitOn s sep with
  | [] => none
  | [_] => none
  | h :: t => some (h, String.intercalate sep t)

/-- Substring test, Python's `pat in s` (for non-empty `pat`). -/
def strContains (s pat : String) : Bool := (strSplitOn s pat).length > 1

/-- Python `re.split` on a whitespace-delimited case-insensitive keyword
(`\s+or\s+` / `\s+and\s+` in app5.py line 113/116): split the text at every
standalone occurrence of the keyword. -/
def splitKeyword (kw : String) (s : String) : List String :=
  let toks := strTokens s
  let grouped := toks.foldr
    (fun t acc =>
      if strToLower t == kw then [] :: acc
      else
        match acc with
        | g :: rest => (t :: g) :: rest
        | [] => [[t]])
    [[]]
  grouped.map (fun g => String.intercalate " " g)

namespace App5

/-- Straightliner column resolution, app5.py lines 42-43: split the question
token on commas, trim, keep the names present in the dataset. -/
def straightRelated (df : DataFrame) (q : String) : List String :=
  ((strSplitOn q ",").map strTrim).filter (fun c => df.cols.contains c)

/-- pandas `df[related].nunique(axis=1)` for one row: the number of distinct
non-null values among the row's cells in `cols` (nunique drops NaN). -/
def nuniqueRow (r : Row) (cols : List String) : Nat :=
  (((cols.map r.cell).filter (fun v => !v.isna)).dedup).length

/-- Straightliner branch, app5.py lines 41-61. -/
def straightlinerFindings (df : DataFrame) (q : String) : List Finding :=
  let related := straightRelated df q
  if 1 < related.length then
    (df.rows.filter (fun r => nuniqueRow r related == 1)).map
      (fun r => ⟨some r.rid, String.intercalate "," related, "Straightliner",
                 "Same response across all items"⟩)
  else
    [⟨none, q, "Straightliner", "Question(s) not found in dataset"⟩]

/-- Missing branch, app5.py lines 73-80: offenders are the rows whose value
is the null marker and whose RespondentID is not in the skip set. -/
def missingFindings (df : DataFrame) (q : String) (skip : List Int) : List Finding :=
  (df.rows.filter (fun r => (r.cell q).isna && !(skip.contains r.rid))).map
    (fun r => ⟨some r.rid, q, "Missing", "Value is missing"⟩)

/-- pandas `Series.between lo hi` on one cell: comparisons with the null
marker are False, so `between` is False on NaN.  (A string cell in a numeric
comparison is outside the modelled fragment; range theorems restrict to
numeric-or-null columns.) -/
def pandasBetween (v : Val) (lo hi : Rat) : Bool :=
  match v with
  | .num x => decide (lo ≤ x) && decide (x ≤ hi)
  | _ => false

/-- Issue text of app5.py line 92. -/
def rangeIssue (lo hi : Rat) : String :=
  "Value out of range (" ++ toString lo ++ "-" ++ toString hi ++ ")"

/-- Range branch body, app5.py lines 86-92 (and appnew.py lines 106-112):
`mask = ~between` and offenders are `mask & ~RespondentID.isin(skip)`. -/
def rangeFindings (df : DataFrame) (q : String) (lo hi : Rat) (skip : List Int) :
    List Finding :=
  (df.rows.filter (fun r => !(pandasBetween (r.cell q) lo hi) && !(skip.contains r.rid))).map
    (fun r => ⟨some r.rid, q, "Range", rangeIssue lo hi⟩)

/-- Range condition parsing, app5.py lines 84-86: require a "-", split on
"-", convert both pieces with `float`; any failure (wrong piece count,
non-numeric piece) raises and is reported as an invalid range condition. -/
def parseRange (cond : Option String) : Option (Rat × Rat) :=
  match cond with
  | none => none
  | some c =>
    match strSplitOn c "-" with
    | [a, b] =>
      match parseRatDec a, parseRatDec b with
      | some lo, some hi => some (lo, hi)
      | _, _ => none
    | _ => none

/-- One parsed `=` / `!=` comparison of an app5 skip antecedent. -/
structure Cmp5 where
  col : String
  ne : Bool
  val : String
deriving DecidableEq, Repr

/-- The parsed pieces of an app5 skip condition. -/
structure ParsedSkip5 where
  groups : List (List Cmp5)
  thenQ : String
  shouldBlank : Bool
deriving DecidableEq, Repr

/-- Comparison parsing, app5.py lines 120-131: normalise `<>` to `!=`, then
split on `!=` if present, else on `=`, else fail. -/
def parseCmp5 (part0 : String) : Option Cmp5 :=
  let part := strReplace (strTrim part0) "<>" "!="
  match splitOnce part "!=" with
  | some (c, v) => some ⟨strTrim c, true, strTrim v⟩
  | none =>
    match splitOnce part "=" with
    | some (c, v) => some ⟨strTrim c, false, strTrim v⟩
    | none => none

/-- Skip condition parsing, app5.py lines 100-136: split on "then", strip a
leading "if", split the antecedent on top-level "or" then "and", parse each
comparison; the target is the first whitespace token of the consequent and
the mode is "should be blank" iff "blank" occurs in the consequent. -/
def parseSkip5 (cond : String) : Option ParsedSkip5 :=
  match splitOnce cond "then" with
  | none => none
  | some (ifp0, thenp0) =>
    let ifp := strTrim ifp0
    let thenp := strTrim thenp0
    let condsText :=
      if strStartsWith (strToLower ifp) "if" then strTrim (strDrop ifp 2) else ifp
    let orGroups := splitKeyword "or" condsText
    match orGroups.mapM (fun g => (splitKeyword "and" g).mapM parseCmp5) with
    | none => none
    | some groups =>
      match (strTokens thenp).head? with
      | none => none
      | some thenQ => some ⟨groups, thenQ, strContains (strToLower thenp) "blank"⟩

/-- One comparison evaluated on one row, app5.py lines 126/129: both sides
compared as trimmed strings. -/
def evalCmp5 (c : Cmp5) (r : Row) : Bool :=
  let lhs := strTrim (pyStr (r.cell c.col))
  if c.ne then lhs != c.val else lhs == c.val

/-- Antecedent mask builder, app5.py lines 113-132: OR of AND-groups.
`df[col]` on a column absent from the dataset raises `KeyError`, so the
whole evaluation fails (`none`) as soon as any comparison names an absent
column; otherwise the mask is total. -/
def evalAntecedent5 (df : DataFrame) (groups : List (List Cmp5)) : Option (Row → Bool) :=
  if groups.all (fun g => g.all (fun c => df.cols.contains c.col)) then
    some (fun r => groups.any (fun g => g.all (fun c => evalCmp5 c r)))
  else none

/-- Skip branch, app5.py lines 98-169.  Every exception raised inside the
branch (missing "then", unsupported operator, `KeyError` on an absent
antecedent column, empty consequent) occurs before any finding is appended,
and is reported as the single rule-level "Invalid skip rule format" finding
with the skip set unchanged. -/
def skipCheck5 (df : DataFrame) (q : String) (cond : Option String) (skip : List Int) :
    List Finding × List Int :=
  let invalid : List Finding × List Int :=
    ([⟨none, q, "Skip", "Invalid skip rule format (" ++ condStr cond ++ ")"⟩], skip)
  match cond with
  | none => invalid
  | some c =>
    match parseSkip5 c with
    | none => invalid
    | some ps =>
      match evalAntecedent5 df ps.groups with
      | none => invalid
      | some mask =>
        if !(df.cols.contains ps.thenQ) then
          ([⟨none, q, "Skip",
             "Skip condition references missing target variable '" ++ ps.thenQ ++ "'"⟩], skip)
        else if ps.shouldBlank then
          let offenders := df.rows.filter (fun r => mask r && !(isBlank (r.cell ps.thenQ)))
          let satisfied := df.rows.filter (fun r => mask r && isBlank (r.cell ps.thenQ))
          (offenders.map (fun r => ⟨some r.rid, q, "Skip", "Answered but should be blank"⟩),
           setUnion skip (satisfied.map Row.rid))
        else
          let offenders := df.rows.filter (fun r => mask r && isBlank (r.cell ps.thenQ))
          (offenders.map (fun r => ⟨some r.rid, q, "Skip", "Blank but should be answered"⟩),
           skip)

/-- Multi-Select column resolution, app5.py line 172: all dataset columns
whose name starts with the question token. -/
def msRelated (df : DataFrame) (q : String) : List String :=
  df.cols.filter (fun c => strStartsWith c q)

/-- pandas `Series.isin [0, 1]` on one cell: value-equality membership; the
null marker is not a member. -/
def isin01 (v : Val) : Bool := v == Val.num 0 || v == Val.num 1

/-- pandas `fillna 0` on one cell: the null marker becomes 0.  (String cells
under a numeric row sum are outside the modelled fragment.) -/
def fillna0 (v : Val) : Rat :=
  match v with
  | .na => 0
  | .num x => x
  | .str _ => 0

/-- Multi-Select branch, app5.py lines 171-184: per resolved column, rows
whose value is not in {0,1} are offenders; then, when at least one column
resolved, rows whose `fillna 0` row sum over the resolved columns is zero
get a "No options selected" finding. -/
def multiSelectFindings (df : DataFrame) (q : String) : List Finding :=
  let related := msRelated df q
  let invalid := related.flatMap (fun col =>
    (df.rows.filter (fun r => !(isin01 (r.cell col)))).map
      (fun r => ⟨some r.rid, col, "Multi-Select", "Invalid value (not 0/1)"⟩))
  let noneSel :=
    if 0 < related.length then
      (df.rows.filter (fun r => decide ((related.map (fun c => fillna0 (r.cell c))).sum = 0))).map
        (fun r => ⟨some r.rid, q, "Multi-Select", "No options selected"⟩)
    else []
  invalid ++ noneSel

/-- OpenEnd_Junk offender test, app5.py line 187 (and app1.py line 164):
`astype(str).str.len() < 3`. -/
def oeJunk (v : Val) : Bool := (pyStr v).length < 3

/-- OpenEnd_Junk branch, app5.py lines 186-192. -/
def openEndFindings (df : DataFrame) (q : String) : List Finding :=
  (df.rows.filter (fun r => oeJunk (r.cell q))).map
    (fun r => ⟨some r.rid, q, "OpenEnd_Junk", "Open-end looks like junk/low-effort"⟩)

/-- Duplicate branch, app5.py lines 194-199: pandas
`duplicated(subset=[q], keep=False)` marks every row whose value in `q`
occurs in at least two rows (the null marker compares equal to itself). -/
def duplicateFindings (df : DataFrame) (q : String) : List Finding :=
  (df.rows.filter (fun r => decide (2 ≤ df.rows.countP (fun r2 => r2.cell q == r.cell q)))).map
    (fun r => ⟨some r.rid, q, "Duplicate", "Duplicate value found"⟩)

/-- One rule-check of app5.py lines 37-199: the Straightliner early branch,
the "Question not found in dataset" pre-dispatch guard of lines 64-71, the
per-check-type `elif` chain, and the silent fall-through for any other
check-type string.  Returns the findings of this rule-check and the updated
skip-satisfaction set. -/
def runCheck (df : DataFrame) (q ct : String) (cond : Option String) (skip : List Int) :
    List Finding × List Int :=
  if ct == "Straightliner" then (straightlinerFindings df q, skip)
  else if !(df.cols.contains q) then
    ([⟨none, q, ct, "Question not found in dataset"⟩], skip)
  else if ct == "Missing" then (missingFindings df q skip, skip)
  else if ct == "Range" then
    match parseRange cond with
    | some (lo, hi) => (rangeFindings df q lo hi skip, skip)
    | none => ([⟨none, q, "Range", "Invalid range condition (" ++ condStr cond ++ ")"⟩], skip)
  else if ct == "Skip" then skipCheck5 df q cond skip
  else if ct == "Multi-Select" then (multiSelectFindings df q, skip)
  else if ct == "OpenEnd_Junk" then (openEndFindings df q, skip)
  else if ct == "Duplicate" then (duplicateFindings df q, skip)
  else ([], skip)

/-- A whole validation run over a list of (question, check_type, condition)
rule-checks, threading the report and the skip-satisfaction set in rule-table
order (app5.py lines 29-199). -/
def runChecks (df : DataFrame) (checks : List (String × String × Option String))
    (start : List Finding × List Int) : List Finding × List Int :=
  checks.foldl
    (fun acc chk =>
      let out := runCheck df chk.1 chk.2.1 chk.2.2 acc.2
      (acc.1 ++ out.1, out.2))
    start

end App5

namespace App6

/-- Missing branch, app6.py lines 87-91: the offender mask is
`isna ∨ trimmed-empty` (the spec's *blank*) conjoined with the RespondentID
not being in the skip-satisfaction set. -/
def missingFindings (df : DataFrame) (q : String) (skip : List Int) : List Finding :=
  (df.rows.filter (fun r => isBlank (r.cell q) && !(skip.contains r.rid))).map
    (fun r => ⟨some r.rid, q, "Missing", "Value is missing"⟩)

end App6

namespace Appnew

/-- Condition pairing, appnew.py lines 54-60: when there are fewer
conditions than check types the last condition is repeated to pad, when
there are more the extras are truncated. -/
def padConditions (check_types conditions : List String) : List String :=
  let conditions :=
    if conditions.length < check_types.length then
      conditions ++
        List.replicate (check_types.length - conditions.length) (conditions.getLastD "")
    else conditions
  if check_types.length < conditions.length then conditions.take check_types.length
  else conditions

/-- The (check_type, condition) rule-checks one rule row yields,
appnew.py lines 51-63: check types positionally paired with the padded /
truncated condition list. -/
def ruleChecks (check_types conditions : List String) : List (String × String) :=
  check_types.zip (padConditions check_types conditions)

/-- Comparison operators of the appnew skip grammar, appnew.py line 140. -/
inductive Op where
  | le | ge | ne | lt | gt | eq
deriving DecidableEq, Repr

/-- The numeric operators, handled by coercing both sides, appnew.py
line 146. -/
def Op.isNumeric : Op → Bool
  | .le | .ge | .lt | .gt => true
  | _ => false

/-- One parsed comparison of an appnew skip antecedent: column, operator,
and the (still textual) right-hand side. -/
structure Cmp where
  col : String
  op : Op
  val : String
deriving DecidableEq, Repr

/-- pandas `to_numeric(errors="coerce")` on one cell: numbers pass through,
numeric strings parse, everything else (including the null marker) becomes
NaN, here `none`. -/
def toNumeric (v : Val) : Option Rat :=
  match v with
  | .num x => some x
  | .str s => parseRatDec s
  | .na => none

/-- A numeric comparison against a coerced cell: comparisons involving NaN
are False in pandas. -/
def numCompare (op : Op) (x : Option Rat) (y : Rat) : Bool :=
  match x with
  | none => false
  | some x =>
    match op with
    | .le => decide (x ≤ y)
    | .ge => decide (y ≤ x)
    | .lt => decide (x < y)
    | .gt => decide (y < x)
    | _ => false

/-- One comparison compiled to a row predicate, appnew.py lines 140-157.
When the column is absent from the dataset the source sets
`sub_mask &= False` and breaks, so the comparison contributes the constant
False without error; a numeric operator on a present column runs
`float(val)`, which raises (whole rule-check fails, `none`) on a
non-numeric right-hand side; `=` / `!=` compare trimmed strings. -/
def compileCmp (df : DataFrame) (c : Cmp) : Option (Row → Bool) :=
  if !(df.cols.contains c.col) then some (fun _ => false)
  else if c.op.isNumeric then
    match parseRatDec c.val with
    | none => none
    | some y => some (fun r => numCompare c.op (toNumeric (r.cell c.col)) y)
  else if c.op == Op.ne then some (fun r => strTrim (pyStr (r.cell c.col)) != c.val)
  else some (fun r => strTrim (pyStr (r.cell c.col)) == c.val)

/-- An AND-group compiled to a row predicate, appnew.py lines 136-157:
`sub_mask` starts True and is conjoined with each comparison in order; an
error in any comparison aborts the whole rule-check. -/
def compileAnd (df : DataFrame) (g : List Cmp) : Option (Row → Bool) :=
  match g with
  | [] => some (fun _ => true)
  | c :: rest => do
    let f ← compileCmp df c
    let fr ← compileAnd df rest
    pure (fun r => f r && fr r)

/-- The full antecedent compiled to a row predicate, appnew.py lines
133-158: `mask` starts False and each AND-group's sub-mask is OR-ed in. -/
def compileAntecedent (df : DataFrame) (groups : List (List Cmp)) : Option (Row → Bool) :=
  match groups with
  | [] => some (fun _ => false)
  | g :: rest => do
    let fg ← compileAnd df g
    let fr ← compileAntecedent df rest
    pure (fun r => fg r || fr r)

end Appnew

/-- Predicate used to scope Range theorems to numeric-or-null columns (a
string cell under a pandas numeric comparison raises instead of producing
per-row findings and is outside the modelled fragment). -/
def numOrNa : Val → Bool
  | .str _ => false
  | _ => true

/-- Test dataset for the spec's Range scenario: Q10 = [3, 7, NaN] for
RespondentIDs [101, 102, 103]. -/
def dfRange : DataFrame :=
  ⟨["RespondentID", "Q10"],
   [⟨101, [("Q10", Val.num 3)]⟩,
    ⟨102, [("Q10", Val.num 7)]⟩,
    ⟨103, [("Q10", Val.na)]⟩]⟩

/-- Test dataset for the Straightliner boundary: A,B = (3,3) for
respondent 1 and (3,4) for respondent 2. -/
def dfStraight : DataFrame :=
  ⟨["RespondentID", "A", "B"],
   [⟨1, [("A", Val.num 3), ("B", Val.num 3)]⟩,
    ⟨2, [("A", Val.num 3), ("B", Val.num 4)]⟩]⟩

/-- The count a literal reading of the spec's Straightliner sentence would
use, following its words: the number of distinct non-BLANK values across
the resolved columns, with *blank* the spec's defined term (null marker or
trimmed-empty string).  Declared only to compare against `App5.nuniqueRow`,
which models the code's pandas `nunique` (dropping only the null marker, so
a whitespace-only string counts as a value). -/
def nuniqueNonBlankRow (r : Row) (cols : List String) : Nat :=
  (((cols.map r.cell).filter (fun v => !isBlank v)).dedup).length

/-- Test dataset distinguishing non-blank from non-null for Straightliner:
respondent 1 has A,B = ("  ", "  ") (both blank, zero distinct non-blank
values) and respondent 2 has A,B = ("x", "  ") (exactly one distinct
non-blank value).  Whitespace-only cells survive the app5 loaders (pandas
default NA handling converts "" but not "  "). -/
def dfStraightBlank : DataFrame :=
  ⟨["RespondentID", "A", "B"],
   [⟨1, [("A", Val.str "  "), ("B", Val.str "  ")]⟩,
    ⟨2, [("A", Val.str "x"), ("B", Val.str "  ")]⟩]⟩

/-- Test dataset for the Duplicate check: Q = [5, 5, 7] for respondents
[1, 2, 3]. -/
def dfDup : DataFrame :=
  ⟨["RespondentID", "Q"],
   [⟨1, [("Q", Val.num 5)]⟩, ⟨2, [("Q", Val.num 5)]⟩, ⟨3, [("Q", Val.num 7)]⟩]⟩

/-- Test dataset for Multi-Select: Q1_1, Q1_2 both blank for respondent 1,
(1, 0) for respondent 2. -/
def dfMulti : DataFrame :=
  ⟨["RespondentID", "Q1_1", "Q1_2"],
   [⟨1, [("Q1_1", Val.na), ("Q1_2", Val.na)]⟩,
    ⟨2, [("Q1_1", Val.num 1), ("Q1_2", Val.num 0)]⟩]⟩

/-- Test dataset for OpenEnd_Junk: Q7 blank for both respondents. -/
def dfOpen : DataFrame :=
  ⟨["RespondentID", "Q7"], [⟨1, [("Q7", Val.na)]⟩, ⟨2, [("Q7", Val.na)]⟩]⟩

/-- Test dataset for the appnew Skip antecedent: only column A exists
(besides RespondentID); A = "1" for respondent 1 and "2" for respondent 2. -/
def dfSkipNew : DataFrame :=
  ⟨["RespondentID", "A"],
   [⟨1, [("A", Val.str "1")]⟩, ⟨2, [("A", Val.str "2")]⟩]⟩

/-- Test dataset for the Missing check: Q1 = [NaN, "  ", "x", NaN] for
RespondentIDs [1, 2, 3, 4]. -/
def dfMissing : DataFrame :=
  ⟨["RespondentID", "Q1"],
   [⟨1, [("Q1", Val.na)]⟩,
    ⟨2, [("Q1", Val.str "  ")]⟩,
    ⟨3, [("Q1", Val.str "x")]⟩,
    ⟨4, [("Q1", Val.na)]⟩]⟩

section Theorems

/-- Findings produced by a filter-then-map pass contain a given respondent
id exactly when some row passes the filter and carries that id (shared
helper for the per-check membership theorems). -/
theorem mem_findings_iff (rows : List Row) (p : Row → Bool) (mk : Row → Finding) (i : Int)
    (hmk : ∀ r, (mk r).rid = some r.rid) :
    (∃ f ∈ (rows.filter p).map mk, f.rid = some i) ↔
    ∃ r ∈ rows, r.rid = i ∧ p r = true := by
  constructor
  · rintro ⟨f, hf, hrid⟩
    rw [List.mem_map] at hf
    obtain ⟨r, hr, rfl⟩ := hf
    rw [List.mem_filter] at hr
    rw [hmk r] at hrid
    exact ⟨r, hr.1, Option.some.inj hrid, hr.2⟩
  · rintro ⟨r, hr, hrid, hp⟩
    exact ⟨mk r, List.mem_map_of_mem _ (List.mem_filter.mpr ⟨hr, hp⟩),
           by rw [hmk r, hrid]⟩

/-- C1: for the Missing check on a resolved target column (app6.py lines
87-91), a respondent id appears in the Missing findings if and only if some
row carries that id, its value in the column is blank (the null marker or a
trimmed-empty string), and the id is not in the skip-satisfaction set at the
time the check runs. -/
theorem C1_missing_iff (df : DataFrame) (q : String) (skip : List Int) (i : Int) :
    (∃ f ∈ App6.missingFindings df q skip, f.rid = some i) ↔
    ∃ r ∈ df.rows, r.rid = i ∧ isBlank (r.cell q) = true ∧ i ∉ skip := by
  rw [App6.missingFindings,
      mem_findings_iff df.rows _ _ i (fun r => rfl)]
  constructor
  · rintro ⟨r, hr, hrid, hp⟩
    rw [Bool.and_eq_true, Bool.not_eq_true'] at hp
    refine ⟨r, hr, hrid, hp.1, ?_⟩
    have := hp.2
    rw [hrid] at this
    simpa using this
  · rintro ⟨r, hr, hrid, hblank, hskip⟩
    refine ⟨r, hr, hrid, ?_⟩
    rw [Bool.and_eq_true, Bool.not_eq_true']
    refine ⟨hblank, ?_⟩
    rw [hrid]
    simpa using hskip

/-- C1 witness: on a concrete dataset with Q1 = [NaN, "  ", "x", NaN] and
skip set {4}, respondents 1 (null marker) and 2 (whitespace string) appear
in the Missing findings while 3 (answered) and 4 (skip-satisfied) do not. -/
theorem C1_missing_witness :
    (∃ f ∈ App6.missingFindings dfMissing "Q1" [4], f.rid = some 1) ∧
    (∃ f ∈ App6.missingFindings dfMissing "Q1" [4], f.rid = some 2) ∧
    ¬(∃ f ∈ App6.missingFindings dfMissing "Q1" [4], f.rid = some 3) ∧
    ¬(∃ f ∈ App6.missingFindings dfMissing "Q1" [4], f.rid = some 4) := by
  refine ⟨(C1_missing_iff dfMissing "Q1" [4] 1).mpr (by decide),
          (C1_missing_iff dfMissing "Q1" [4] 2).mpr (by decide),
          fun h => absurd ((C1_missing_iff dfMissing "Q1" [4] 3).mp h) (by decide),
          fun h => absurd ((C1_missing_iff dfMissing "Q1" [4] 4).mp h) (by decide)⟩

/-- C2 counterexample: for the well-formed Range condition "1-5" over
Q10 = [3, 7, NaN] (RespondentIDs 101, 102, 103) with an empty
skip-satisfaction set, the code flags BOTH respondent 102 (out of range)
and respondent 103, whose value is blank — `~Series.between` is True on the
null marker — contradicting the claim that a blank value never produces a
Range finding. -/
theorem C2_counterexample :
    App5.rangeFindings dfRange "Q10" 1 5 [] =
      [⟨some 102, "Q10", "Range", App5.rangeIssue 1 5⟩,
       ⟨some 103, "Q10", "Range", App5.rangeIssue 1 5⟩] := by
  decide

/-- C2 (amended): for the Range check with a well-formed condition, over a
numeric-or-blank column, a row is reported as an offender if and only if its
RespondentID is not in the skip-satisfaction set and its target value fails
the `between` test — that is, it is blank, or numeric and outside
[min, max].  In particular a blank row outside the skip set IS reported. -/
theorem C2_range_offenders (df : DataFrame) (q : String) (lo hi : Rat) (skip : List Int)
    (i : Int) (hnum : ∀ r ∈ df.rows, numOrNa (r.cell q) = true) :
    (∃ f ∈ App5.rangeFindings df q lo hi skip, f.rid = some i) ↔
    ∃ r ∈ df.rows, r.rid = i ∧
      (r.cell q = Val.na ∨ ∃ x, r.cell q = Val.num x ∧ (x < lo ∨ hi < x)) ∧
      i ∉ skip := by
  rw [App5.rangeFindings,
      mem_findings_iff df.rows _ _ i (fun r => rfl)]
  constructor
  · rintro ⟨r, hr, hrid, hp⟩
    rw [Bool.and_eq_true, Bool.not_eq_true', Bool.not_eq_true'] at hp
    refine ⟨r, hr, hrid, ?_, ?_⟩
    · have hv := hnum r hr
      cases hcell : r.cell q with
      | na => exact Or.inl rfl
      | str s => rw [hcell] at hv; simp [numOrNa] at hv
      | num x =>
        refine Or.inr ⟨x, rfl, ?_⟩
        have hb := hp.1
        rw [hcell] at hb
        simp only [App5.pandasBetween, Bool.and_eq_false_iff, decide_eq_false_iff_not,
          not_le] at hb
        exact hb.elim Or.inl Or.inr
    · have := hp.2
      rw [hrid] at this
      simpa using this
  · rintro ⟨r, hr, hrid, hv, hskip⟩
    refine ⟨r, hr, hrid, ?_⟩
    rw [Bool.and_eq_true, Bool.not_eq_true', Bool.not_eq_true']
    constructor
    · rcases hv with hna | ⟨x, hx, hout⟩
      · rw [hna]; rfl
      · rw [hx]
        simp only [App5.pandasBetween, Bool.and_eq_false_iff, decide_eq_false_iff_not, not_le]
        exact hout.elim Or.inl Or.inr
    · rw [hrid]
      simpa using hskip

/-- C2 witness: applying the amended Range theorem to the spec's scenario
(condition "1-5", Q10 = [3, 7, NaN], empty skip set): respondents 103
(blank) and 102 (out of range) appear among the offenders. -/
theorem C2_range_witness :
    (∃ f ∈ App5.rangeFindings dfRange "Q10" 1 5 [], f.rid = some 103) ∧
    (∃ f ∈ App5.rangeFindings dfRange "Q10" 1 5 [], f.rid = some 102) :=
  ⟨(C2_range_offenders dfRange "Q10" 1 5 [] 103 (by decide)).mpr
      ⟨⟨103, [("Q10", Val.na)]⟩, by decide, rfl, Or.inl rfl, by decide⟩,
   (C2_range_offenders dfRange "Q10" 1 5 [] 102 (by decide)).mpr
      ⟨⟨102, [("Q10", Val.num 7)]⟩, by decide, rfl,
       Or.inr ⟨7, rfl, Or.inr (by norm_num)⟩, by decide⟩⟩

/-- The padded condition list of appnew.py lines 54-60 in closed form:
the conditions truncated to the number of check types, then the last
condition repeated to fill up to that number. -/
theorem padConditions_eq (cts conds : List String) (hc : conds ≠ []) :
    Appnew.padConditions cts conds =
      conds.take cts.length ++
        List.replicate (cts.length - conds.length) (conds.getLast hc) := by
  have hlast : conds.getLastD "" = conds.getLast hc := by
    rw [List.getLastD_eq_getLast?, List.getLast?_eq_getLast conds hc]
    rfl
  simp only [Appnew.padConditions]
  by_cases h : conds.length < cts.length
  · rw [if_pos h]
    have hlen : (conds ++
        List.replicate (cts.length - conds.length) (conds.getLastD "")).length = cts.length := by
      simp only [List.length_append, List.length_replicate]
      omega
    rw [if_neg (by omega : ¬ cts.length < (conds ++
        List.replicate (cts.length - conds.length) (conds.getLastD "")).length)]
    rw [List.take_of_length_le (le_of_lt h), hlast]
  · rw [if_neg h]
    push_neg at h
    by_cases h2 : cts.length < conds.length
    · rw [if_pos h2]
      have hz : cts.length - conds.length = 0 := by omega
      rw [hz, List.replicate_zero, List.append_nil]
    · rw [if_neg h2]
      have heq : conds.length = cts.length := by omega
      have hz : cts.length - conds.length = 0 := by omega
      rw [hz, List.replicate_zero, List.append_nil,
          List.take_of_length_le (by omega : conds.length ≤ cts.length)]

/-- C4: a rule row with n check types and m (non-empty) conditions always
yields exactly n (check_type, condition) rule-checks (appnew.py lines
51-63); positions below m are paired with their own condition, and when
m < n the last condition is repeated for the remaining check types — in
closed form, the conditions are truncated to n and padded with the last
condition. -/
theorem C4_condition_pairing (cts conds : List String) (hc : conds ≠ []) :
    (Appnew.ruleChecks cts conds).length = cts.length ∧
    Appnew.ruleChecks cts conds =
      cts.zip (conds.take cts.length ++
        List.replicate (cts.length - conds.length) (conds.getLast hc)) := by
  have hpad := padConditions_eq cts conds hc
  constructor
  · rw [Appnew.ruleChecks, List.length_zip, hpad]
    simp only [List.length_append, List.length_take, List.length_replicate]
    omega
  · rw [Appnew.ruleChecks, hpad]

/-- C4 witness: 3 check types with 2 conditions yield exactly 3 rule-checks,
the third reusing the last condition. -/
theorem C4_pairing_witness :
    (Appnew.ruleChecks ["Missing", "Range", "Skip"] ["", "1-5"]).length = 3 ∧
    Appnew.ruleChecks ["Missing", "Range", "Skip"] ["", "1-5"] =
      [("Missing", ""), ("Range", "1-5"), ("Skip", "1-5")] := by
  have h := C4_condition_pairing ["Missing", "Range", "Skip"] ["", "1-5"] (by decide)
  exact ⟨h.1.trans (by decide), h.2.trans (by decide)⟩

/-- C6 counterexample: the claim's iff — offender exactly when the count of
distinct non-BLANK values equals 1 — is false of the code in both
directions.  pandas `nunique(axis=1)` (app5.py line 45) drops only the null
marker, so with columns A,B the row ("  ", "  ") — both cells blank, ZERO
distinct non-blank values — IS flagged (the whitespace string counts as its
one distinct value), while the row ("x", "  ") — exactly ONE distinct
non-blank value — is NOT flagged (nunique sees two values). -/
theorem C6_counterexample :
    (∃ f ∈ App5.straightlinerFindings dfStraightBlank "A,B", f.rid = some 1) ∧
    nuniqueNonBlankRow ⟨1, [("A", Val.str "  "), ("B", Val.str "  ")]⟩ ["A", "B"] = 0 ∧
    ¬(∃ f ∈ App5.straightlinerFindings dfStraightBlank "A,B", f.rid = some 2) ∧
    nuniqueNonBlankRow ⟨2, [("A", Val.str "x"), ("B", Val.str "  ")]⟩ ["A", "B"] = 1 := by
  decide

/-- C6 (amended): for the Straightliner check (app5.py lines 41-61), when at
least two columns resolve, a respondent id appears in the findings iff some
row with that id has exactly one distinct non-NULL value across the
resolved columns — pandas `nunique` drops only the null marker, so a
blank-but-non-null string (e.g. whitespace) counts as a value; when fewer
than two columns resolve, the check emits exactly one rule-level finding
(null RespondentID) and no per-respondent finding. -/
theorem C6_straightliner (df : DataFrame) (q : String) (i : Int) :
    (1 < (App5.straightRelated df q).length →
      ((∃ f ∈ App5.straightlinerFindings df q, f.rid = some i) ↔
       ∃ r ∈ df.rows, r.rid = i ∧
         App5.nuniqueRow r (App5.straightRelated df q) = 1)) ∧
    ((App5.straightRelated df q).length ≤ 1 →
      App5.straightlinerFindings df q =
        [⟨none, q, "Straightliner", "Question(s) not found in dataset"⟩]) := by
  constructor
  · intro hlen
    rw [App5.straightlinerFindings]
    simp only [if_pos hlen]
    rw [mem_findings_iff df.rows _ _ i (fun r => rfl)]
    constructor
    · rintro ⟨r, hr, hrid, hp⟩
      exact ⟨r, hr, hrid, by simpa using hp⟩
    · rintro ⟨r, hr, hrid, hp⟩
      exact ⟨r, hr, hrid, by simpa using hp⟩
  · intro hlen
    rw [App5.straightlinerFindings]
    simp only [if_neg (not_lt.mpr hlen)]

/-- C6 witness: with columns A,B, respondent 1 with values (3,3) is flagged
and respondent 2 with (3,4) is not; the single-column question "A" yields
only the rule-level finding. -/
theorem C6_straightliner_witness :
    (∃ f ∈ App5.straightlinerFindings dfStraight "A,B", f.rid = some 1) ∧
    ¬(∃ f ∈ App5.straightlinerFindings dfStraight "A,B", f.rid = some 2) ∧
    App5.straightlinerFindings dfStraight "A" =
      [⟨none, "A", "Straightliner", "Question(s) not found in dataset"⟩] :=
  ⟨((C6_straightliner dfStraight "A,B" 1).1 (by decide)).mpr (by decide),
   fun h => absurd (((C6_straightliner dfStraight "A,B" 2).1 (by decide)).mp h) (by decide),
   (C6_straightliner dfStraight "A" 0).2 (by decide)⟩

/-- C7: for the Duplicate check (app5.py lines 194-199, pandas
`duplicated(keep=False)`), a respondent id appears in the findings iff some
row with that id has a value in the resolved column shared by at least two
rows of the dataset — every row sharing the value is flagged, including the
first occurrence. -/
theorem C7_duplicate_iff (df : DataFrame) (q : String) (i : Int) :
    (∃ f ∈ App5.duplicateFindings df q, f.rid = some i) ↔
    ∃ r ∈ df.rows, r.rid = i ∧
      2 ≤ (df.rows.filter (fun r2 => r2.cell q == r.cell q)).length := by
  rw [App5.duplicateFindings, mem_findings_iff df.rows _ _ i (fun r => rfl)]
  constructor
  · rintro ⟨r, hr, hrid, hp⟩
    refine ⟨r, hr, hrid, ?_⟩
    rw [decide_eq_true_eq, List.countP_eq_length_filter] at hp
    exact hp
  · rintro ⟨r, hr, hrid, hp⟩
    refine ⟨r, hr, hrid, ?_⟩
    rw [decide_eq_true_eq, List.countP_eq_length_filter]
    exact hp

/-- C7 witness: values [5, 5, 7] for respondents [1, 2, 3] yield Duplicate
findings for respondents 1 and 2 (both occurrences of the shared value) and
none for respondent 3. -/
theorem C7_duplicate_witness :
    (∃ f ∈ App5.duplicateFindings dfDup "Q", f.rid = some 1) ∧
    (∃ f ∈ App5.duplicateFindings dfDup "Q", f.rid = some 2) ∧
    ¬(∃ f ∈ App5.duplicateFindings dfDup "Q", f.rid = some 3) :=
  ⟨(C7_duplicate_iff dfDup "Q" 1).mpr (by decide),
   (C7_duplicate_iff dfDup "Q" 2).mpr (by decide),
   fun h => absurd ((C7_duplicate_iff dfDup "Q" 3).mp h) (by decide)⟩

/-- C9: for the Multi-Select check (app5.py lines 171-184), a blank cell in
a resolved column is reported with Issue "Invalid value (not 0/1)" — the
`isin [0, 1]` membership test rejects the null marker like any other
non-0/1 value — while the same blank contributes 0 (via `fillna 0`) to the
row sum of the "No options selected" sub-check, so an all-blank row is also
reported as having no options selected. -/
theorem C9_multiselect_blank (df : DataFrame) (q : String) (r : Row) (c : String)
    (hr : r ∈ df.rows) (hc : c ∈ App5.msRelated df q) (hna : r.cell c = Val.na) :
    (⟨some r.rid, c, "Multi-Select", "Invalid value (not 0/1)"⟩ : Finding) ∈
      App5.multiSelectFindings df q ∧
    App5.fillna0 (r.cell c) = 0 ∧
    ((∀ c2 ∈ App5.msRelated df q, r.cell c2 = Val.na) →
      (⟨some r.rid, q, "Multi-Select", "No options selected"⟩ : Finding) ∈
        App5.multiSelectFindings df q) := by
  refine ⟨?_, by rw [hna]; rfl, fun hall => ?_⟩
  · rw [App5.multiSelectFindings]
    simp only [List.mem_append]
    left
    rw [List.mem_flatMap]
    refine ⟨c, hc, ?_⟩
    apply List.mem_map_of_mem
    rw [List.mem_filter]
    refine ⟨hr, ?_⟩
    rw [hna]
    rfl
  · rw [App5.multiSelectFindings]
    simp only [List.mem_append]
    right
    have hpos : 0 < (App5.msRelated df q).length :=
      List.length_pos.mpr (List.ne_nil_of_mem hc)
    rw [if_pos hpos]
    apply List.mem_map_of_mem
    rw [List.mem_filter]
    refine ⟨hr, ?_⟩
    rw [decide_eq_true_eq]
    apply List.sum_eq_zero
    intro x hx
    rw [List.mem_map] at hx
    obtain ⟨c2, hc2, rfl⟩ := hx
    rw [hall c2 hc2]
    rfl

/-- C9 witness: respondent 1 (both Q1_ cells blank) receives an
"Invalid value (not 0/1)" finding for column Q1_1 and a
"No options selected" finding; the blank contributes 0 to the row sum. -/
theorem C9_multiselect_witness :
    (⟨some 1, "Q1_1", "Multi-Select", "Invalid value (not 0/1)"⟩ : Finding) ∈
      App5.multiSelectFindings dfMulti "Q1_" ∧
    App5.fillna0 ((⟨1, [("Q1_1", Val.na), ("Q1_2", Val.na)]⟩ : Row).cell "Q1_1") = 0 ∧
    (⟨some 1, "Q1_", "Multi-Select", "No options selected"⟩ : Finding) ∈
      App5.multiSelectFindings dfMulti "Q1_" := by
  have h := C9_multiselect_blank dfMulti "Q1_" ⟨1, [("Q1_1", Val.na), ("Q1_2", Val.na)]⟩
    "Q1_1" (by decide) (by decide) (by rfl)
  exact ⟨h.1, h.2.1, h.2.2 (by decide)⟩

/-- C10: the OpenEnd_Junk check (app5.py lines 186-192, app1.py lines
163-167) never flags a blank value: pandas `astype(str)` renders the null
marker as the three-character string "nan", whose length is not below 3, so
the "too short" test is false on every blank cell, and a column of blanks
produces no findings at all. -/
theorem C10_openend_blank (df : DataFrame) (q : String) (r : Row)
    (hr : r ∈ df.rows) (hna : r.cell q = Val.na) :
    pyStr (r.cell q) = "nan" ∧ (pyStr (r.cell q)).length = 3 ∧
    App5.oeJunk (r.cell q) = false ∧
    ((∀ r2 ∈ df.rows, r2.cell q = Val.na) → App5.openEndFindings df q = []) := by
  refine ⟨by rw [hna]; rfl, by rw [hna]; rfl, by rw [hna]; rfl, fun hall => ?_⟩
  have hfil : df.rows.filter (fun r2 => App5.oeJunk (r2.cell q)) = [] := by
    rw [List.filter_eq_nil_iff]
    intro a ha
    rw [hall a ha]
    decide
  rw [App5.openEndFindings, hfil]
  rfl

/-- C10 witness: a dataset whose Q7 column is entirely blank produces no
OpenEnd_Junk findings, and the blank stringifies to "nan". -/
theorem C10_openend_witness :
    pyStr ((⟨1, [("Q7", Val.na)]⟩ : Row).cell "Q7") = "nan" ∧
    App5.oeJunk ((⟨1, [("Q7", Val.na)]⟩ : Row).cell "Q7") = false ∧
    App5.openEndFindings dfOpen "Q7" = [] := by
  have h := C10_openend_blank dfOpen "Q7" ⟨1, [("Q7", Val.na)]⟩ (by decide) (by rfl)
  exact ⟨h.1, h.2.2.1, h.2.2.2 (by decide)⟩

/-- C8 counterexample: the unrecognized check type "Foo" on a question
absent from the dataset does NOT go silent — app5.py lines 64-71 emit the
rule-level "Question not found in dataset" finding before the check-type
dispatch, carrying the unrecognized Check_Type — refuting the claim that
such a rule-check produces no findings at all. -/
theorem C8_counterexample :
    App5.runCheck dfMissing "QX" "Foo" none [] ≠ (([] : List Finding), ([] : List Int)) ∧
    App5.runCheck dfMissing "QX" "Foo" none [] =
      ([⟨none, "QX", "Foo", "Question not found in dataset"⟩], []) := by
  decide

/-- C8 (amended): in the app5.py dispatch chain (lines 37-199), a rule-check
with an unrecognized Check_Type produces no per-respondent findings, raises
no error, and leaves the skip set unchanged; it produces no findings at all
when its question is a dataset column, and exactly the pre-dispatch
rule-level "Question not found in dataset" finding when it is not. -/
theorem C8_unrecognized (df : DataFrame) (q ct : String) (cond : Option String)
    (skip : List Int)
    (h : ct ∉ ["Straightliner", "Missing", "Range", "Skip", "Multi-Select",
               "OpenEnd_Junk", "Duplicate"]) :
    App5.runCheck df q ct cond skip =
      ((if df.cols.contains q then ([] : List Finding)
        else [⟨none, q, ct, "Question not found in dataset"⟩]), skip) := by
  simp only [List.mem_cons, List.not_mem_nil, or_false, not_or] at h
  obtain ⟨h1, h2, h3, h4, h5, h6, h7⟩ := h
  by_cases hq : q ∈ df.cols
  · simp [App5.runCheck, h1, h2, h3, h4, h5, h6, h7, hq]
  · simp [App5.runCheck, h1, h2, h3, h4, h5, h6, h7, hq]

/-- C8 witness: "Foo" on present column Q1 produces nothing; "Foo" on
absent column QX produces exactly the rule-level not-found finding. -/
theorem C8_unrecognized_witness :
    App5.runCheck dfMissing "Q1" "Foo" none [] = ([], []) ∧
    App5.runCheck dfMissing "QX" "Foo" none [] =
      ([⟨none, "QX", "Foo", "Question not found in dataset"⟩], []) := by
  have h1 := C8_unrecognized dfMissing "Q1" "Foo" none [] (by decide)
  have h2 := C8_unrecognized dfMissing "QX" "Foo" none [] (by decide)
  exact ⟨h1.trans (by decide), h2.trans (by decide)⟩

/-- The skip-satisfaction set is contained in the Python set union that the
"should be blank" branch performs. -/
theorem subset_setUnion_left (s t : List Int) : s ⊆ setUnion s t :=
  List.subset_append_left _ _

/-- The app5 Skip branch never removes ids from the skip-satisfaction set. -/
theorem skipCheck5_skip_mono (df : DataFrame) (q : String) (cond : Option String)
    (skip : List Int) : skip ⊆ (App5.skipCheck5 df q cond skip).2 := by
  rw [App5.skipCheck5.eq_def]
  repeat' split
  all_goals first
    | exact List.Subset.refl _
    | exact subset_setUnion_left _ _

/-- No app5 rule-check removes ids from the skip-satisfaction set. -/
theorem runCheck_skip_mono (df : DataFrame) (q ct : String) (cond : Option String)
    (skip : List Int) : skip ⊆ (App5.runCheck df q ct cond skip).2 := by
  rw [App5.runCheck]
  repeat' split
  all_goals first
    | exact List.Subset.refl _
    | exact skipCheck5_skip_mono df q cond skip

/-- Rule-checks other than Skip return the skip-satisfaction set
unchanged. -/
theorem runCheck_skip_eq_of_ne (df : DataFrame) (q ct : String) (cond : Option String)
    (skip : List Int) (h : ct ≠ "Skip") :
    (App5.runCheck df q ct cond skip).2 = skip := by
  simp only [App5.runCheck, beq_iff_eq]
  repeat' split
  all_goals rfl

/-- A Skip check whose parsed consequent mode is "should be answered"
returns the skip-satisfaction set unchanged. -/
theorem skipCheck5_answered_eq (df : DataFrame) (q c : String) (ps : App5.ParsedSkip5)
    (skip : List Int) (hps : App5.parseSkip5 c = some ps)
    (hb : ps.shouldBlank = false) :
    (App5.skipCheck5 df q (some c) skip).2 = skip := by
  rw [App5.skipCheck5]
  simp only [hps]
  cases hev : App5.evalAntecedent5 df ps.groups with
  | none => simp only [hev]
  | some mask =>
    simp only [hev]
    by_cases hq : ps.thenQ ∈ df.cols
    · simp [hq, hb]
    · simp [hq]

/-- A whole run only ever grows the skip-satisfaction set. -/
theorem runChecks_skip_mono (df : DataFrame)
    (checks : List (String × String × Option String)) :
    ∀ fnd skip, skip ⊆ (App5.runChecks df checks (fnd, skip)).2 := by
  induction checks with
  | nil => intro fnd skip; exact List.Subset.refl _
  | cons chk rest ih =>
    intro fnd skip
    have step : App5.runChecks df (chk :: rest) (fnd, skip) =
        App5.runChecks df rest
          (fnd ++ (App5.runCheck df chk.1 chk.2.1 chk.2.2 skip).1,
           (App5.runCheck df chk.1 chk.2.1 chk.2.2 skip).2) := by
      rw [App5.runChecks, App5.runChecks, List.foldl_cons]
    rw [step]
    exact (runCheck_skip_mono df chk.1 chk.2.1 chk.2.2 skip).trans (ih _ _)

/-- C3: throughout a validation run the skip-satisfaction set grows
monotonically — every rule-check's output set contains its input set, and a
whole run's final set contains the initial one; any rule-check whose type
is not Skip returns the set unchanged, and a Skip check whose parsed
consequent mode is "should be answered" also returns it unchanged (only
"should be blank" Skip checks can add ids, via a set union). -/
theorem C3_skip_monotone (df : DataFrame) (q ct : String) (cond : Option String)
    (skip : List Int) :
    skip ⊆ (App5.runCheck df q ct cond skip).2 ∧
    (ct ≠ "Skip" → (App5.runCheck df q ct cond skip).2 = skip) ∧
    (∀ c ps, cond = some c → App5.parseSkip5 c = some ps → ps.shouldBlank = false →
      (App5.runCheck df q ct cond skip).2 = skip) ∧
    (∀ checks fnd, skip ⊆ (App5.runChecks df checks (fnd, skip)).2) := by
  refine ⟨runCheck_skip_mono df q ct cond skip,
          runCheck_skip_eq_of_ne df q ct cond skip,
          fun c ps hcond hps hb => ?_,
          fun checks fnd => runChecks_skip_mono df checks fnd skip⟩
  by_cases hct : ct = "Skip"
  · subst hct
    subst hcond
    rw [App5.runCheck]
    rw [if_neg (by decide : ¬ (("Skip" == "Straightliner") = true))]
    by_cases hq : df.cols.contains q
    · rw [hq]
      simp only [Bool.not_true, if_neg (by simp : ¬ (false = true))]
      rw [if_neg (by decide : ¬ (("Skip" == "Missing") = true)),
          if_neg (by decide : ¬ (("Skip" == "Range") = true)),
          if_pos (by decide : (("Skip" == "Skip") = true))]
      exact skipCheck5_answered_eq df q c ps skip hps hb
    · have hq2 : q ∉ df.cols := by simpa using hq
      simp [hq2]
  · exact runCheck_skip_eq_of_ne df q ct cond skip hct

/-- C3 witness: a Missing check, an answered-mode Skip check, and a
one-check run all preserve the concrete skip set {7}. -/
theorem C3_skip_monotone_witness :
    [(7 : Int)] ⊆ (App5.runCheck dfMissing "Q1" "Missing" none [7]).2 ∧
    (App5.runCheck dfMissing "Q1" "Missing" none [7]).2 = [7] ∧
    (App5.runCheck dfMissing "Q1" "Skip" (some "A=1 then Q1 x") [7]).2 = [7] ∧
    [(7 : Int)] ⊆ (App5.runChecks dfMissing [("Q1", "Missing", none)] ([], [7])).2 :=
  ⟨(C3_skip_monotone dfMissing "Q1" "Missing" none [7]).1,
   (C3_skip_monotone dfMissing "Q1" "Missing" none [7]).2.1 (by decide),
   (C3_skip_monotone dfMissing "Q1" "Skip" (some "A=1 then Q1 x") [7]).2.2.1
     "A=1 then Q1 x" ⟨[[⟨"A", false, "1"⟩]], "Q1", false⟩ rfl (by decide) rfl,
   (C3_skip_monotone dfMissing "Q1" "Missing" none [7]).2.2.2 [("Q1", "Missing", none)] []⟩

/-- A comparison naming a column absent from the dataset compiles to the
constant-False row predicate without error (appnew.py lines 143-145). -/
theorem compileCmp_missing (df : DataFrame) (c : Appnew.Cmp)
    (h : df.cols.contains c.col = false) :
    Appnew.compileCmp df c = some (fun _ => false) := by
  rw [Appnew.compileCmp, h]
  rfl

/-- A comparison compiles whenever it is well formed: a numeric operator on
a present column needs a parseable numeric right-hand side; all other
comparisons always compile. -/
theorem compileCmp_isSome (df : DataFrame) (c : Appnew.Cmp)
    (h : c.op.isNumeric = true → df.cols.contains c.col = true →
      (parseRatDec c.val).isSome = true) :
    (Appnew.compileCmp df c).isSome = true := by
  rw [Appnew.compileCmp]
  by_cases hcolm : c.col ∈ df.cols
  · have hcol : df.cols.contains c.col = true := by simpa using hcolm
    rw [hcol]
    rw [if_neg (by simp)]
    by_cases hn : c.op.isNumeric = true
    · rw [if_pos hn]
      obtain ⟨y, hy⟩ := Option.isSome_iff_exists.mp (h hn hcol)
      rw [hy]
      rfl
    · rw [if_neg hn]
      split <;> rfl
  · have hcol : df.cols.contains c.col = false := by simpa using hcolm
    rw [hcol]
    rw [if_pos (by simp)]
    rfl

/-- An AND-group compiles when each of its comparisons does. -/
theorem compileAnd_isSome (df : DataFrame) (g : List Appnew.Cmp)
    (h : ∀ c ∈ g, (Appnew.compileCmp df c).isSome = true) :
    ∃ fg, Appnew.compileAnd df g = some fg := by
  induction g with
  | nil => exact ⟨_, rfl⟩
  | cons c rest ih =>
    obtain ⟨f, hf⟩ := Option.isSome_iff_exists.mp (h c (List.mem_cons_self c rest))
    obtain ⟨fr, hfr⟩ := ih (fun c2 hc2 => h c2 (List.mem_cons_of_mem c hc2))
    exact ⟨_, by rw [Appnew.compileAnd, hf, hfr]; rfl⟩

/-- An AND-group containing a comparison on an absent column evaluates to
False on every row (the `sub_mask &= False` of appnew.py line 144 makes the
whole conjunction False). -/
theorem compileAnd_false (df : DataFrame) (g : List Appnew.Cmp) (c : Appnew.Cmp)
    (hc : c ∈ g) (hcol : df.cols.contains c.col = false) :
    ∀ fg, Appnew.compileAnd df g = some fg → ∀ r, fg r = false := by
  induction g with
  | nil => cases hc
  | cons c0 rest ih =>
    intro fg hfg
    rw [Appnew.compileAnd] at hfg
    cases hf0 : Appnew.compileCmp df c0 with
    | none => rw [hf0] at hfg; cases hfg
    | some f0 =>
      rw [hf0] at hfg
      cases hfr : Appnew.compileAnd df rest with
      | none => rw [hfr] at hfg; cases hfg
      | some fr =>
        rw [hfr] at hfg
        have hfg2 : (fun r => f0 r && fr r) = fg := Option.some.inj hfg
        intro r
        simp only [← hfg2]
        rcases List.mem_cons.mp hc with hceq | hcrest
        · have hmiss : Appnew.compileCmp df c0 = some (fun _ => false) := by
            rw [← hceq]
            exact compileCmp_missing df c hcol
          have hf0eq : f0 = fun _ => false := by
            rw [hf0] at hmiss
            exact Option.some.inj hmiss
          rw [hf0eq]
          rfl
        · rw [ih hcrest fr hfr r, Bool.and_false]

/-- The antecedent compiles when every AND-group does. -/
theorem compileAntecedent_isSome (df : DataFrame) (gs : List (List Appnew.Cmp))
    (h : ∀ g ∈ gs, ∃ fg, Appnew.compileAnd df g = some fg) :
    ∃ f, Appnew.compileAntecedent df gs = some f := by
  induction gs with
  | nil => exact ⟨_, rfl⟩
  | cons g0 rest ih =>
    obtain ⟨f0, hf0⟩ := h g0 (List.mem_cons_self g0 rest)
    obtain ⟨fr, hfr⟩ := ih (fun g2 hg2 => h g2 (List.mem_cons_of_mem g0 hg2))
    exact ⟨_, by rw [Appnew.compileAntecedent, hf0, hfr]; rfl⟩

/-- Dropping an AND-group that evaluates to False on every row does not
change the antecedent's value on any row: the OR of the remaining groups is
still evaluated as usual. -/
theorem compileAntecedent_erase_eq (df : DataFrame) (g : List Appnew.Cmp)
    (fg : Row → Bool) (hfg : Appnew.compileAnd df g = some fg)
    (hfalse : ∀ r, fg r = false) :
    ∀ gs, g ∈ gs → ∀ f, Appnew.compileAntecedent df gs = some f →
      ∃ f2, Appnew.compileAntecedent df (gs.erase g) = some f2 ∧ ∀ r, f r = f2 r := by
  intro gs
  induction gs with
  | nil => intro h; cases h
  | cons g0 rest ih =>
    intro hg f hf
    rw [Appnew.compileAntecedent] at hf
    cases hf0 : Appnew.compileAnd df g0 with
    | none => rw [hf0] at hf; cases hf
    | some f0 =>
      rw [hf0] at hf
      cases hfr : Appnew.compileAntecedent df rest with
      | none => rw [hfr] at hf; cases hf
      | some fr =>
        rw [hfr] at hf
        have hfeq : (fun r => f0 r || fr r) = f := Option.some.inj hf
        by_cases hgg : g0 = g
        · subst hgg
          refine ⟨fr, ?_, ?_⟩
          · rw [List.erase_cons_head]
            exact hfr
          · intro r
            simp only [← hfeq]
            have hf0eq : f0 = fg := by
              rw [hf0] at hfg
              exact Option.some.inj hfg
            rw [hf0eq, hfalse r, Bool.false_or]
        · have hgrest : g ∈ rest := by
            rcases List.mem_cons.mp hg with h1 | h2
            · exact absurd h1.symm hgg
            · exact h2
          obtain ⟨f2, hf2, hfeq2⟩ := ih hgrest fr hfr
          refine ⟨fun r => f0 r || f2 r, ?_, ?_⟩
          · rw [List.erase_cons_tail (by simpa using hgg), Appnew.compileAntecedent,
                hf0, hf2]
            rfl
          · intro r
            simp only [← hfeq]
            rw [hfeq2 r]

/-- C5: in an appnew Skip antecedent (appnew.py lines 133-158), when one
comparison of a well-formed condition references a column absent from the
dataset, the whole antecedent still compiles (no exception, hence no
rule-level parse-failure finding for that reason), the AND-group containing
that comparison evaluates to False on every row, and on every row the
antecedent equals the OR of the remaining groups — the rest of the
condition is still evaluated. -/
theorem C5_skip_missing_column (df : DataFrame) (gs : List (List Appnew.Cmp))
    (g : List Appnew.Cmp) (c : Appnew.Cmp) (hg : g ∈ gs) (hc : c ∈ g)
    (hcol : df.cols.contains c.col = false)
    (hwf : ∀ g2 ∈ gs, ∀ c2 ∈ g2, c2.op.isNumeric = true →
      df.cols.contains c2.col = true → (parseRatDec c2.val).isSome = true) :
    ∃ f f2, Appnew.compileAntecedent df gs = some f ∧
      (∃ fg, Appnew.compileAnd df g = some fg ∧ ∀ r, fg r = false) ∧
      Appnew.compileAntecedent df (gs.erase g) = some f2 ∧
      ∀ r, f r = f2 r := by
  have hall : ∀ g2 ∈ gs, ∃ fg2, Appnew.compileAnd df g2 = some fg2 :=
    fun g2 hg2 =>
      compileAnd_isSome df g2 (fun c2 hc2 => compileCmp_isSome df c2 (hwf g2 hg2 c2 hc2))
  obtain ⟨f, hf⟩ := compileAntecedent_isSome df gs hall
  obtain ⟨fg, hfg⟩ := hall g hg
  have hfalse := compileAnd_false df g c hc hcol fg hfg
  obtain ⟨f2, hf2, heq⟩ := compileAntecedent_erase_eq df g fg hfg hfalse gs hg f hf
  exact ⟨f, f2, hf, ⟨fg, hfg, hfalse⟩, hf2, heq⟩

/-- C5 witness: over a dataset with only column A, the antecedent
"A=1 or B=1" (group 2 referencing the absent column B) compiles, its
B-group is constantly False, and the whole antecedent agrees with just the
A-group on every row. -/
theorem C5_skip_missing_column_witness :
    ∃ f f2,
      Appnew.compileAntecedent dfSkipNew
        [[⟨"A", Appnew.Op.eq, "1"⟩], [⟨"B", Appnew.Op.eq, "1"⟩]] = some f ∧
      (∃ fg, Appnew.compileAnd dfSkipNew [⟨"B", Appnew.Op.eq, "1"⟩] = some fg ∧
        ∀ r, fg r = false) ∧
      Appnew.compileAntecedent dfSkipNew
        ([[⟨"A", Appnew.Op.eq, "1"⟩], [⟨"B", Appnew.Op.eq, "1"⟩]].erase
          [⟨"B", Appnew.Op.eq, "1"⟩]) = some f2 ∧
      ∀ r, f r = f2 r :=
  C5_skip_missing_column dfSkipNew
    [[⟨"A", Appnew.Op.eq, "1"⟩], [⟨"B", Appnew.Op.eq, "1"⟩]]
    [⟨"B", Appnew.Op.eq, "1"⟩] ⟨"B", Appnew.Op.eq, "1"⟩
    (by decide) (by decide) (by decide) (by decide)

end Theorems
